import Mathlib

/-
Verification of the XC120 bridge communication module
(acconeer/exptool/flash/_xc120/_xcbridge_comm.py) against its
natural-language specification.

The module implements a synchronous command/response bridge over a serial
link: requests are encoded as a 2-byte little-endian command id followed by
parameter bytes, responses are command-channel frame payloads decoded into
command id, status byte and result bytes, and a nonzero status is escalated
by issuing the get-last-error command.

Embedding conventions:
- bytes are Nat (each byte < 256 where the wire produces them);
- the mutable object state of XCCommunication, together with the
  environment it interacts with, is the structure CommSt: the serial
  handle (Option Unit, none once closed), the reader-started flag, the
  scripted list of command-channel frame payloads the device will deliver
  (the transport boundary), and the trace of payloads written to the
  serial port;
- Python exceptions are the error type PyErr, and each method returns
  an (Except PyErr result) paired with the state after the call, since a
  Python exception does not roll back mutations that already happened;
- the recursive method get_last_error is embedded with a fuel parameter
  instantiated at replies.length + 1, which always suffices because every
  recursive call first consumes one scripted reply.
-/

/-- Python exceptions raised (directly or by the runtime) in the paths of
this module. fuelExhausted is an artifact of the fuel embedding of the
recursive get_last_error and is proved unreachable below. -/
inductive PyErr where
  | timeoutError (msg : String)
  | queueEmpty
  | commandFailed (msg : String)
  | attributeError
  | typeError
  | indexError
  | unicodeDecodeError
  | osError (msg : String)
  | fuelExhausted
deriving DecidableEq, Repr

/-- State of one XCCommunication object plus its environment:
ser is the serial handle (none after close), readerStarted the
_reader_started flag, replies the scripted command-channel frame payloads
still to be delivered by the UartReader, sent the trace of command
payloads written to the serial port. -/
structure CommSt where
  ser : Option Unit
  readerStarted : Bool
  replies : List (List Nat)
  sent : List (List Nat)
deriving DecidableEq, Repr

/-- Python int.from_bytes(payload[0:2], byteorder="little"): reads up to two
leading bytes, little-endian; absent bytes contribute nothing. -/
def fromLE2 : List Nat → Nat
  | [] => 0
  | [a] => a
  | a :: b :: _ => a + 256 * b

/-- Python command_id.to_bytes(2, byteorder="little"). All command ids of
the module are below 2^16, where this agrees with Python (which raises
OverflowError above). -/
def toLE2 (n : Nat) : List Nat :=
  [n % 256, n / 256 % 256]

/-- Python bytes.decode("ascii"): fails (UnicodeDecodeError) when a byte is
128 or larger. -/
def decodeAscii (bs : List Nat) : Except PyErr String :=
  if bs.all (fun b => b < 128) then .ok (String.mk (bs.map Char.ofNat))
  else .error .unicodeDecodeError

/-- The decoded response-side packet objects: one constructor per response
class registered in _command_packets, each carrying the command_payload
it was constructed from. -/
inductive CommandPacket where
  | getLastErrorResponse (payload : List Nat)
  | getAppSwVersionResponse (payload : List Nat)
  | getAppSwNameResponse (payload : List Nat)
deriving DecidableEq, Repr

/-- The payload attribute common to the three response classes. -/
def CommandPacket.payload : CommandPacket → List Nat
  | .getLastErrorResponse p => p
  | .getAppSwVersionResponse p => p
  | .getAppSwNameResponse p => p

/-- Each response class defines get_status as self.payload[0]; indexing an
empty payload is an IndexError. -/
def CommandPacket.get_status (p : CommandPacket) : Except PyErr Nat :=
  match p.payload with
  | [] => .error .indexError
  | b :: _ => .ok b

/-- GetLastErrorResponsePacket.get_response_data: self.payload[1:].decode("ascii").
Calling it on an object of another response class is an AttributeError. -/
def CommandPacket.get_response_data : CommandPacket → Except PyErr String
  | .getLastErrorResponse p => decodeAscii (p.drop 1)
  | _ => .error .attributeError

/-- GetAppSwVersionResponsePacket.get_version: self.payload[1:].decode("ascii").
Calling it on an object of another response class is an AttributeError. -/
def CommandPacket.get_version : CommandPacket → Except PyErr String
  | .getAppSwVersionResponse p => decodeAscii (p.drop 1)
  | _ => .error .attributeError

/-- GetAppSwNameResponsePacket.get_name: self.payload[1:].decode("ascii").
Calling it on an object of another response class is an AttributeError. -/
def CommandPacket.get_name : CommandPacket → Except PyErr String
  | .getAppSwNameResponse p => decodeAscii (p.drop 1)
  | _ => .error .attributeError

/-- The module-level registry _command_packets mapping command_id to the
response class used to interpret an inbound frame. -/
def commandPackets (cid : Nat) : Option (List Nat → CommandPacket) :=
  if cid = 0x0002 then some CommandPacket.getLastErrorResponse
  else if cid = 0x010A then some CommandPacket.getAppSwVersionResponse
  else if cid = 0x010B then some CommandPacket.getAppSwNameResponse
  else none

/-- XcCommandResponsePacket: command_id is int.from_bytes(payload[0:2], "little"),
command_payload is payload[2:]. -/
structure XcCommandResponsePacket where
  command_id : Nat
  command_payload : List Nat
deriving DecidableEq, Repr

/-- Constructing an XcCommandResponsePacket from a command-channel frame
payload (slicing in Python never fails, however short the payload). -/
def XcCommandResponsePacket.ofPayload (payload : List Nat) : XcCommandResponsePacket :=
  { command_id := fromLE2 payload, command_payload := payload.drop 2 }

/-- XcCommandResponsePacket.get_command_packet:
_command_packets.get(self.command_id)(self.command_payload). A command_id
absent from the registry makes .get return None, and calling None is a
TypeError. -/
def XcCommandResponsePacket.get_command_packet (r : XcCommandResponsePacket) :
    Except PyErr CommandPacket :=
  match commandPackets r.command_id with
  | none => .error .typeError
  | some decoder => .ok (decoder r.command_payload)

/-- XcCommandRequestPacket.__init__: the request payload is the 2-byte
little-endian command_id prepended to the command payload
(command_payload[0:0] = command_id.to_bytes(2, "little")). -/
def xcCommandRequestPayload (command_id : Nat) (command_payload : List Nat) : List Nat :=
  toLE2 command_id ++ command_payload

/-- GetLastErrorRequestPacket: command_id 0x0002, empty payload. -/
def getLastErrorRequest : List Nat := xcCommandRequestPayload 0x0002 []

/-- GetAppSwVersionRequestPacket: command_id 0x010A, empty payload. -/
def getAppSwVersionRequest : List Nat := xcCommandRequestPayload 0x010A []

/-- GetAppSwNameRequestPacket: command_id 0x010B, empty payload. -/
def getAppSwNameRequest : List Nat := xcCommandRequestPayload 0x010B []

/-- DfuRebootRequestPacket: command_id 0xFFFF, empty payload. -/
def dfuRebootRequest : List Nat := xcCommandRequestPayload 0xFFFF []

/-- XCCommunication.__init__: on a platform other than Linux it raises
OSError before acquiring the serial port or starting the reader; on Linux
it opens the port, starts the background reader and sets the timeout. -/
def XCCommunication.init (platformSystem : String) (replies : List (List Nat)) :
    Except PyErr CommSt :=
  if platformSystem ≠ "Linux" then .error (.osError "Module only supports Linux.")
  else .ok { ser := some (), readerStarted := true, replies := replies, sent := [] }

/-- XCCommunication.stop: stops the reader when it is running, otherwise
does nothing. -/
def XCCommunication.stop (st : CommSt) : CommSt :=
  if st.readerStarted then { st with readerStarted := false } else st

/-- XCCommunication.close: self.stop(); self._ser.close(); self._ser = None.
When _ser is already None (the session was closed before), None.close() is
an AttributeError. -/
def XCCommunication.close (st : CommSt) : Except PyErr CommSt :=
  let st1 := XCCommunication.stop st
  match st1.ser with
  | none => .error .attributeError
  | some _ => .ok { st1 with ser := none }

/-- XCCommunication._send_packet: self._ser.write(data). When _ser is None
(after close), attribute access on None is an AttributeError; otherwise the
payload is appended to the trace of written data. -/
def XCCommunication.sendPacket (data : List Nat) (st : CommSt) :
    Except PyErr Unit × CommSt :=
  match st.ser with
  | none => (.error .attributeError, st)
  | some _ => (.ok (), { st with sent := st.sent ++ [data] })

/-- Transport boundary (UartReader.wait_packet, external to this module):
delivers the next scripted command-channel frame payload; an exhausted
script stands for no frame arriving before the deadline, which surfaces as
queue.Empty. -/
def UartReader.waitPacket (st : CommSt) : Except PyErr (List Nat) × CommSt :=
  match st.replies with
  | [] => (.error .queueEmpty, st)
  | r :: rest => (.ok r, { st with replies := rest })

/-- XCCommunication._execute_request: send the request, wait for the next
command-channel frame, decode it via get_command_packet; queue.Empty from
the wait is caught and re-raised as TimeoutError. -/
def XCCommunication.executeRequest (packet : List Nat) (st : CommSt) :
    Except PyErr CommandPacket × CommSt :=
  match XCCommunication.sendPacket packet st with
  | (.error e, st1) => (.error e, st1)
  | (.ok _, st1) =>
    match UartReader.waitPacket st1 with
    | (.error .queueEmpty, st2) => (.error (.timeoutError "_execute_request timeout"), st2)
    | (.error e, st2) => (.error e, st2)
    | (.ok payload, st2) => ((XcCommandResponsePacket.ofPayload payload).get_command_packet, st2)

/-- XCCommunication.get_last_error, fuel-indexed. The Python method is
recursive with no structural bound: on a nonzero status it calls
self.get_last_error() again and raises CommandFailed with the inner
message. Each recursive call first consumes one scripted reply, so fuel
replies.length + 1 always suffices (getLastErrorAux_no_fuelExhausted). -/
def XCCommunication.getLastErrorAux : Nat → CommSt → Except PyErr String × CommSt
  | 0, st => (.error .fuelExhausted, st)
  | fuel + 1, st =>
    match XCCommunication.executeRequest getLastErrorRequest st with
    | (.error e, st1) => (.error e, st1)
    | (.ok response, st1) =>
      match response.get_status with
      | .error e => (.error e, st1)
      | .ok status =>
        match response.get_response_data with
        | .error e => (.error e, st1)
        | .ok response_data =>
          if status ≠ 0 then
            match XCCommunication.getLastErrorAux fuel st1 with
            | (.error e, st2) => (.error e, st2)
            | (.ok error_msg, st2) =>
              (.error (.commandFailed
                ("Command failed with code " ++ toString status ++ " [" ++ error_msg ++ "]")), st2)
          else (.ok response_data, st1)

/-- XCCommunication.get_last_error. -/
def XCCommunication.get_last_error (st : CommSt) : Except PyErr String × CommSt :=
  XCCommunication.getLastErrorAux (st.replies.length + 1) st

/-- XCCommunication.get_app_sw_version: execute the request, read status and
version (in that order, before the status check), and on nonzero status
fetch the last error and raise CommandFailed. -/
def XCCommunication.get_app_sw_version (st : CommSt) : Except PyErr String × CommSt :=
  match XCCommunication.executeRequest getAppSwVersionRequest st with
  | (.error e, st1) => (.error e, st1)
  | (.ok response, st1) =>
    match response.get_status with
    | .error e => (.error e, st1)
    | .ok status =>
      match response.get_version with
      | .error e => (.error e, st1)
      | .ok version =>
        if status ≠ 0 then
          match XCCommunication.get_last_error st1 with
          | (.error e, st2) => (.error e, st2)
          | (.ok error_msg, st2) =>
            (.error (.commandFailed
              ("Command failed with code " ++ toString status ++ " [" ++ error_msg ++ "]")), st2)
        else (.ok version, st1)

/-- XCCommunication.get_app_sw_name: execute the request, read status and
name (in that order, before the status check), and on nonzero status fetch
the last error and raise CommandFailed. -/
def XCCommunication.get_app_sw_name (st : CommSt) : Except PyErr String × CommSt :=
  match XCCommunication.executeRequest getAppSwNameRequest st with
  | (.error e, st1) => (.error e, st1)
  | (.ok response, st1) =>
    match response.get_status with
    | .error e => (.error e, st1)
    | .ok status =>
      match response.get_name with
      | .error e => (.error e, st1)
      | .ok name =>
        if status ≠ 0 then
          match XCCommunication.get_last_error st1 with
          | (.error e, st2) => (.error e, st2)
          | (.ok error_msg, st2) =>
            (.error (.commandFailed
              ("Command failed with code " ++ toString status ++ " [" ++ error_msg ++ "]")), st2)
        else (.ok name, st1)

/-- XCCommunication.dfu_reboot: fire-and-forget, only sends the request. -/
def XCCommunication.dfu_reboot (st : CommSt) : Except PyErr Unit × CommSt :=
  XCCommunication.sendPacket dfuRebootRequest st

/-! Helper lemmas characterizing one request/response exchange. -/

/-- Sending on a closed session fails before anything is written. -/
lemma executeRequest_closed (packet : List Nat) (st : CommSt) (h : st.ser = none) :
    XCCommunication.executeRequest packet st = (.error .attributeError, st) := by
  simp [XCCommunication.executeRequest, XCCommunication.sendPacket, h]

/-- With an open session and no reply arriving, an exchange times out after
writing exactly the request. -/
lemma executeRequest_timeout (packet : List Nat) (st : CommSt)
    (h : st.ser = some ()) (h2 : st.replies = []) :
    XCCommunication.executeRequest packet st
      = (.error (.timeoutError "_execute_request timeout"),
         { st with sent := st.sent ++ [packet] }) := by
  simp [XCCommunication.executeRequest, XCCommunication.sendPacket,
    UartReader.waitPacket, h, h2]

/-- With an open session and a scripted reply, an exchange writes the
request, consumes the reply and decodes it. -/
lemma executeRequest_reply (packet r : List Nat) (rest : List (List Nat)) (st : CommSt)
    (h : st.ser = some ()) (h2 : st.replies = r :: rest) :
    XCCommunication.executeRequest packet st
      = ((XcCommandResponsePacket.ofPayload r).get_command_packet,
         { st with replies := rest, sent := st.sent ++ [packet] }) := by
  simp [XCCommunication.executeRequest, XCCommunication.sendPacket,
    UartReader.waitPacket, h, h2]

/-- Inversion of a successful registry lookup: the command_id and decoder
are one of the three registered pairs. -/
lemma commandPackets_eq_some (cid : Nat) (d : List Nat → CommandPacket)
    (h : commandPackets cid = some d) :
    (cid = 0x0002 ∧ d = CommandPacket.getLastErrorResponse)
    ∨ (cid = 0x010A ∧ d = CommandPacket.getAppSwVersionResponse)
    ∨ (cid = 0x010B ∧ d = CommandPacket.getAppSwNameResponse) := by
  unfold commandPackets at h
  split_ifs at h with h1 h2 h3 <;> simp_all

/-- A successful exchange always consumes one scripted reply, so the fuel
given to getLastErrorAux by get_last_error is never exhausted. -/
lemma getLastErrorAux_no_fuelExhausted :
    ∀ (fuel : Nat) (st : CommSt), st.replies.length < fuel →
      (XCCommunication.getLastErrorAux fuel st).1 ≠ Except.error PyErr.fuelExhausted := by
  intro fuel
  induction fuel with
  | zero => intro st h; exact absurd h (Nat.not_lt_zero _)
  | succ f ih =>
    rintro ⟨ser, rs, replies, sent⟩ h
    cases ser with
    | none =>
      simp [XCCommunication.getLastErrorAux, XCCommunication.executeRequest,
        XCCommunication.sendPacket]
    | some u =>
      cases replies with
      | nil =>
        simp [XCCommunication.getLastErrorAux, XCCommunication.executeRequest,
          XCCommunication.sendPacket, UartReader.waitPacket]
      | cons r rest =>
        have hlen : rest.length < f := by simpa using Nat.lt_of_succ_lt_succ h
        have key := ih ⟨some u, rs, rest, sent ++ [getLastErrorRequest]⟩ (by simpa using hlen)
        rcases hreg : commandPackets (XcCommandResponsePacket.ofPayload r).command_id
          with _ | decoder
        case none =>
          simp [XCCommunication.getLastErrorAux, XCCommunication.executeRequest,
            XCCommunication.sendPacket, UartReader.waitPacket,
            XcCommandResponsePacket.get_command_packet, hreg]
        case some =>
          rcases commandPackets_eq_some _ _ hreg with ⟨hc, hd⟩ | ⟨hc, hd⟩ | ⟨hc, hd⟩ <;>
            subst hd <;>
            rcases hp : (XcCommandResponsePacket.ofPayload r).command_payload with _ | ⟨b, tl⟩
          · simp [XCCommunication.getLastErrorAux, XCCommunication.executeRequest,
              XCCommunication.sendPacket, UartReader.waitPacket,
              XcCommandResponsePacket.get_command_packet, hreg, hp,
              CommandPacket.get_status, CommandPacket.payload]
          · by_cases hascii : tl.all (fun x => x < 128)
            · by_cases hz : b = 0
              · simp [XCCommunication.getLastErrorAux, XCCommunication.executeRequest,
                  XCCommunication.sendPacket, UartReader.waitPacket,
                  XcCommandResponsePacket.get_command_packet, hreg, hp,
                  CommandPacket.get_status, CommandPacket.payload,
                  CommandPacket.get_response_data, decodeAscii, hascii, hz]
              · simp only [XCCommunication.getLastErrorAux, XCCommunication.executeRequest,
                  XCCommunication.sendPacket, UartReader.waitPacket,
                  XcCommandResponsePacket.get_command_packet, hreg, hp,
                  CommandPacket.get_status, CommandPacket.payload,
                  CommandPacket.get_response_data, List.drop_succ_cons, List.drop_zero,
                  decodeAscii, hascii, if_true, hz, if_false, ite_false, ite_true]
                rcases hA : XCCommunication.getLastErrorAux f
                    ⟨some u, rs, rest, sent ++ [getLastErrorRequest]⟩ with ⟨res, st2⟩
                rw [hA] at key
                rw [if_pos hz]
                cases res with
                | error e => simpa using key
                | ok m => simp
            · simp [XCCommunication.getLastErrorAux, XCCommunication.executeRequest,
                XCCommunication.sendPacket, UartReader.waitPacket,
                XcCommandResponsePacket.get_command_packet, hreg, hp,
                CommandPacket.get_status, CommandPacket.payload,
                CommandPacket.get_response_data, decodeAscii, hascii]
          · simp [XCCommunication.getLastErrorAux, XCCommunication.executeRequest,
              XCCommunication.sendPacket, UartReader.waitPacket,
              XcCommandResponsePacket.get_command_packet, hreg, hp,
              CommandPacket.get_status, CommandPacket.payload]
          · simp [XCCommunication.getLastErrorAux, XCCommunication.executeRequest,
              XCCommunication.sendPacket, UartReader.waitPacket,
              XcCommandResponsePacket.get_command_packet, hreg, hp,
              CommandPacket.get_status, CommandPacket.payload,
              CommandPacket.get_response_data]
          · simp [XCCommunication.getLastErrorAux, XCCommunication.executeRequest,
              XCCommunication.sendPacket, UartReader.waitPacket,
              XcCommandResponsePacket.get_command_packet, hreg, hp,
              CommandPacket.get_status, CommandPacket.payload]
          · simp [XCCommunication.getLastErrorAux, XCCommunication.executeRequest,
              XCCommunication.sendPacket, UartReader.waitPacket,
              XcCommandResponsePacket.get_command_packet, hreg, hp,
              CommandPacket.get_status, CommandPacket.payload,
              CommandPacket.get_response_data]

/-- Behaviour of the error resolver against a device whose every
get-last-error reply carries status 1 (frame payload [2, 0, 1]): each
recursion level sends one more get-last-error request and consumes one
reply, until the script runs out and the exchange times out. -/
lemma getLastErrorAux_allNonzero (n : Nat) :
    ∀ (fuel : Nat) (s : List (List Nat)), n < fuel →
      XCCommunication.getLastErrorAux fuel
        ⟨some (), true, List.replicate n [2, 0, 1], s⟩
      = (.error (.timeoutError "_execute_request timeout"),
         ⟨some (), true, [], s ++ List.replicate (n + 1) getLastErrorRequest⟩) := by
  induction n with
  | zero =>
    intro fuel s h
    match fuel, h with
    | f + 1, _ =>
      simp [XCCommunication.getLastErrorAux, XCCommunication.executeRequest,
        XCCommunication.sendPacket, UartReader.waitPacket]
  | succ m ih =>
    intro fuel s h
    match fuel, h with
    | f + 1, h2 =>
      have hm : m < f := Nat.lt_of_succ_lt_succ h2
      simp [XCCommunication.getLastErrorAux, XCCommunication.executeRequest,
        XCCommunication.sendPacket, UartReader.waitPacket, List.replicate_succ,
        XcCommandResponsePacket.ofPayload, XcCommandResponsePacket.get_command_packet,
        commandPackets, fromLE2, CommandPacket.get_status, CommandPacket.payload,
        CommandPacket.get_response_data, decodeAscii, ih f _ hm]

/-- Claim C1: the specification requires get_last_error to bound its
recursion (if the error-fetch reply itself has nonzero status, return a
fallback message embedding the raw status code without invoking itself
again). The code does the opposite: on a nonzero status it invokes
self.get_last_error() again. Against a device answering every
get-last-error with status 1, the resolver issues n + 1 get-last-error
requests for a script of n replies (one per recursion level, unbounded in
the device's behaviour), never returns a fallback message, and finally
fails with the timeout of the innermost exchange. -/
theorem C1_get_last_error_recursion_unbounded (n : Nat) :
    XCCommunication.get_last_error ⟨some (), true, List.replicate n [2, 0, 1], []⟩
      = (.error (.timeoutError "_execute_request timeout"),
         ⟨some (), true, [], List.replicate (n + 1) getLastErrorRequest⟩) := by
  have h := getLastErrorAux_allNonzero n (n + 1) [] (Nat.lt_succ_self n)
  simpa [XCCommunication.get_last_error] using h

/-- Claim C2 counterexample: with a get-app-version request (command_id
0x010A) outstanding and a response frame carrying command_id 0x010B, the
frame is decoded according to its own command_id and returned by
_execute_request (no correlation check, no ProtocolViolation); the call
then dies with an untyped AttributeError when it looks up get_version on
the name-response object. -/
theorem C2_counterexample :
    (XCCommunication.executeRequest getAppSwVersionRequest
        ⟨some (), true, [[11, 1, 0, 102, 111, 111]], []⟩).1
      = .ok (CommandPacket.getAppSwNameResponse [0, 102, 111, 111])
    ∧ (XCCommunication.get_app_sw_version
        ⟨some (), true, [[11, 1, 0, 102, 111, 111]], []⟩).1
      = .error PyErr.attributeError :=
  ⟨rfl, rfl⟩

/-- Claim C2 as the code has it: there is no command_id correlation check.
A response frame whose command_id (0x010B here) differs from the
outstanding request's (0x010A) is decoded per its own command_id and
returned from _execute_request as if it were the reply; the enclosing call
fails only incidentally, with an untyped AttributeError when the expected
accessor is missing on the mismatched response object, never with a typed
ProtocolViolation. -/
theorem C2_mismatched_response_decoded (st : CommSt) (b : Nat) (tl : List Nat)
    (rest : List (List Nat)) (hser : st.ser = some ())
    (hrep : st.replies = (11 :: 1 :: b :: tl) :: rest) :
    XCCommunication.executeRequest getAppSwVersionRequest st
      = (.ok (CommandPacket.getAppSwNameResponse (b :: tl)),
         { st with replies := rest, sent := st.sent ++ [getAppSwVersionRequest] })
    ∧ (XCCommunication.get_app_sw_version st).1 = .error PyErr.attributeError := by
  constructor
  · rw [executeRequest_reply getAppSwVersionRequest (11 :: 1 :: b :: tl) rest st hser hrep]
    simp [XcCommandResponsePacket.ofPayload, XcCommandResponsePacket.get_command_packet,
      commandPackets, fromLE2]
  · simp [XCCommunication.get_app_sw_version,
      executeRequest_reply getAppSwVersionRequest (11 :: 1 :: b :: tl) rest st hser hrep,
      XcCommandResponsePacket.ofPayload, XcCommandResponsePacket.get_command_packet,
      commandPackets, fromLE2, CommandPacket.get_status, CommandPacket.payload,
      CommandPacket.get_version]

/-- Claim C2 witness: the amended statement at a concrete session. -/
theorem C2_mismatched_response_decoded_witness :
    XCCommunication.executeRequest getAppSwVersionRequest
        ⟨some (), true, [[11, 1, 0, 55]], []⟩
      = (.ok (CommandPacket.getAppSwNameResponse [0, 55]),
         ⟨some (), true, [], [getAppSwVersionRequest]⟩)
    ∧ (XCCommunication.get_app_sw_version
        ⟨some (), true, [[11, 1, 0, 55]], []⟩).1 = .error PyErr.attributeError :=
  C2_mismatched_response_decoded ⟨some (), true, [[11, 1, 0, 55]], []⟩ 0 [55] [] rfl rfl

/-- Claim C3: for every registered command kind, the codec round-trips the
wire fields exactly. Decoding an encoded request recovers the command_id
and the parameter bytes; decoding a response wire payload built from the
command_id, status byte and result bytes recovers those fields (the
command_payload is the status byte followed by the result bytes); and
re-encoding a decoded payload of byte values reproduces the payload. -/
theorem C3_codec_roundtrip (cid : Nat) (params result : List Nat) (s a b : Nat)
    (rest : List Nat) (hreg : (commandPackets cid).isSome = true)
    (ha : a < 256) (hb : b < 256) :
    (XcCommandResponsePacket.ofPayload (xcCommandRequestPayload cid params)).command_id = cid
    ∧ (XcCommandResponsePacket.ofPayload
        (xcCommandRequestPayload cid params)).command_payload = params
    ∧ (XcCommandResponsePacket.ofPayload
        (xcCommandRequestPayload cid (s :: result))).command_id = cid
    ∧ (XcCommandResponsePacket.ofPayload
        (xcCommandRequestPayload cid (s :: result))).command_payload = s :: result
    ∧ xcCommandRequestPayload (XcCommandResponsePacket.ofPayload (a :: b :: rest)).command_id
        (XcCommandResponsePacket.ofPayload (a :: b :: rest)).command_payload
      = a :: b :: rest := by
  have h5 : xcCommandRequestPayload
      (XcCommandResponsePacket.ofPayload (a :: b :: rest)).command_id
      (XcCommandResponsePacket.ofPayload (a :: b :: rest)).command_payload
      = a :: b :: rest := by
    simp [xcCommandRequestPayload, toLE2, XcCommandResponsePacket.ofPayload, fromLE2]
    constructor <;> omega
  rcases Option.isSome_iff_exists.mp hreg with ⟨d, hdec⟩
  rcases commandPackets_eq_some cid d hdec with ⟨hc, _⟩ | ⟨hc, _⟩ | ⟨hc, _⟩ <;> subst hc <;>
    refine ⟨?_, ?_, ?_, ?_, h5⟩ <;>
    simp [xcCommandRequestPayload, toLE2, XcCommandResponsePacket.ofPayload, fromLE2]

/-- Claim C3 witness: the round-trip at command_id 0x010A with concrete
parameter, status and result bytes. -/
theorem C3_codec_roundtrip_witness :
    (XcCommandResponsePacket.ofPayload (xcCommandRequestPayload 266 [7])).command_id = 266
    ∧ (XcCommandResponsePacket.ofPayload
        (xcCommandRequestPayload 266 [7])).command_payload = [7]
    ∧ (XcCommandResponsePacket.ofPayload
        (xcCommandRequestPayload 266 (0 :: [65]))).command_id = 266
    ∧ (XcCommandResponsePacket.ofPayload
        (xcCommandRequestPayload 266 (0 :: [65]))).command_payload = 0 :: [65]
    ∧ xcCommandRequestPayload (XcCommandResponsePacket.ofPayload (10 :: 1 :: [0, 5])).command_id
        (XcCommandResponsePacket.ofPayload (10 :: 1 :: [0, 5])).command_payload
      = 10 :: 1 :: [0, 5] :=
  C3_codec_roundtrip 266 [7] [65] 0 10 1 [0, 5] (by decide) (by decide) (by decide)

/-- Claim C4 counterexample: a 2-byte payload (shorter than the 3-byte
fixed header) decodes WITHOUT error — frame decode and registry dispatch
both succeed, and only the later get_status call fails, with an untyped
IndexError; and a payload whose command_id (0x9999) is absent from the
registry fails with an untyped TypeError (calling the None returned by
dict.get), not a typed unregistered-command error. -/
theorem C4_counterexample :
    (XcCommandResponsePacket.ofPayload [2, 0]).get_command_packet
      = .ok (CommandPacket.getLastErrorResponse [])
    ∧ (CommandPacket.getLastErrorResponse []).get_status = .error PyErr.indexError
    ∧ (XcCommandResponsePacket.ofPayload [153, 153, 0]).get_command_packet
      = .error PyErr.typeError :=
  ⟨rfl, rfl, rfl⟩

/-- Claim C4 as the code has it: decoding rejects nothing up front. A
payload whose command_id is not registered fails in get_command_packet
with an untyped TypeError; a payload for a registered command_id that is
too short to carry a status byte decodes successfully and only the
get_status accessor fails, with an untyped IndexError. There are no typed
malformed-frame or unregistered-command errors. -/
theorem C4_untyped_decode_errors (payload : List Nat) (cid : Nat)
    (hunreg : commandPackets (fromLE2 payload) = none)
    (hreg : (commandPackets cid).isSome = true) :
    (XcCommandResponsePacket.ofPayload payload).get_command_packet = .error PyErr.typeError
    ∧ ∃ p, (XcCommandResponsePacket.ofPayload (toLE2 cid)).get_command_packet = .ok p
        ∧ p.get_status = .error PyErr.indexError := by
  constructor
  · simp [XcCommandResponsePacket.get_command_packet, XcCommandResponsePacket.ofPayload,
      hunreg]
  · rcases Option.isSome_iff_exists.mp hreg with ⟨d, hdec⟩
    rcases commandPackets_eq_some cid d hdec with ⟨hc, hd⟩ | ⟨hc, hd⟩ | ⟨hc, hd⟩ <;>
      subst hc <;> exact ⟨_, rfl, rfl⟩

/-- Claim C4 witness: the amended statement at the unregistered payload
[153, 153, 0] and the registered command_id 0x0002. -/
theorem C4_untyped_decode_errors_witness :
    (XcCommandResponsePacket.ofPayload [153, 153, 0]).get_command_packet
      = .error PyErr.typeError
    ∧ ∃ p, (XcCommandResponsePacket.ofPayload (toLE2 2)).get_command_packet = .ok p
        ∧ p.get_status = .error PyErr.indexError :=
  C4_untyped_decode_errors [153, 153, 0] 2 rfl rfl

/-- Claim C5: on an open session with no frame arriving before the
deadline, each command call fails with TimeoutError (a different error
kind from CommandFailed), exactly one request is written (no retry), the
serial handle and reader flag are untouched (the transport stays open),
and the same session is usable for a subsequent call that succeeds once a
reply arrives. -/
theorem C5_timeout_keeps_session_open (st : CommSt)
    (hser : st.ser = some ()) (hrep : st.replies = []) :
    XCCommunication.get_app_sw_version st
      = (.error (.timeoutError "_execute_request timeout"), { st with sent := st.sent ++ [getAppSwVersionRequest] })
    ∧ XCCommunication.get_app_sw_name st
      = (.error (.timeoutError "_execute_request timeout"), { st with sent := st.sent ++ [getAppSwNameRequest] })
    ∧ XCCommunication.get_last_error st
      = (.error (.timeoutError "_execute_request timeout"), { st with sent := st.sent ++ [getLastErrorRequest] })
    ∧ (∀ m1 m2, PyErr.timeoutError m1 ≠ PyErr.commandFailed m2)
    ∧ XCCommunication.get_app_sw_version { st with replies := [[10, 1, 0, 50, 46, 49, 46, 48]], sent := st.sent ++ [getAppSwVersionRequest] }
      = (.ok "2.1.0", { st with replies := [], sent := (st.sent ++ [getAppSwVersionRequest]) ++ [getAppSwVersionRequest] }) := by
  have hstr : decodeAscii [50, 46, 49, 46, 48] = .ok "2.1.0" := rfl
  refine ⟨?_, ?_, ?_, ?_, ?_⟩
  · simp [XCCommunication.get_app_sw_version,
      executeRequest_timeout getAppSwVersionRequest st hser hrep]
  · simp [XCCommunication.get_app_sw_name,
      executeRequest_timeout getAppSwNameRequest st hser hrep]
  · simp [XCCommunication.get_last_error, hrep, XCCommunication.getLastErrorAux,
      executeRequest_timeout getLastErrorRequest st hser hrep]
  · intro m1 m2 hcontra
    exact PyErr.noConfusion hcontra
  · have h5 := executeRequest_reply getAppSwVersionRequest [10, 1, 0, 50, 46, 49, 46, 48]
      [] { st with replies := [[10, 1, 0, 50, 46, 49, 46, 48]], sent := st.sent ++ [getAppSwVersionRequest] } (by simp [hser]) (by simp)
    simp [XCCommunication.get_app_sw_version, h5,
      XcCommandResponsePacket.ofPayload, XcCommandResponsePacket.get_command_packet,
      commandPackets, fromLE2, CommandPacket.get_status, CommandPacket.payload,
      CommandPacket.get_version, hstr]

/-- Claim C5 witness: the timeout behaviour at a concrete open session
with an empty reply queue. -/
theorem C5_timeout_keeps_session_open_witness :
    XCCommunication.get_app_sw_version ⟨some (), true, [], []⟩
      = (.error (.timeoutError "_execute_request timeout"), ⟨some (), true, [], [getAppSwVersionRequest]⟩)
    ∧ XCCommunication.get_app_sw_name ⟨some (), true, [], []⟩
      = (.error (.timeoutError "_execute_request timeout"), ⟨some (), true, [], [getAppSwNameRequest]⟩)
    ∧ XCCommunication.get_last_error ⟨some (), true, [], []⟩
      = (.error (.timeoutError "_execute_request timeout"), ⟨some (), true, [], [getLastErrorRequest]⟩)
    ∧ (∀ m1 m2, PyErr.timeoutError m1 ≠ PyErr.commandFailed m2)
    ∧ XCCommunication.get_app_sw_version ⟨some (), true, [[10, 1, 0, 50, 46, 49, 46, 48]], [getAppSwVersionRequest]⟩
      = (.ok "2.1.0", ⟨some (), true, [], [getAppSwVersionRequest, getAppSwVersionRequest]⟩) :=
  C5_timeout_keeps_session_open ⟨some (), true, [], []⟩ rfl rfl

/-- Claim C6 counterexample: get_app_sw_name receives status 3, but the
get-last-error reply itself carries status 1, so the resolver recurses: TWO
get-last-error requests are issued (not exactly one), and the CommandFailed
finally raised carries the inner status 1 instead of the original 3. -/
theorem C6_counterexample :
    XCCommunication.get_app_sw_name
        ⟨some (), true, [[11, 1, 3, 78], [2, 0, 1], [2, 0, 0, 69]], []⟩
      = (.error (.commandFailed "Command failed with code 1 [E]"),
         ⟨some (), true, [], [getAppSwNameRequest, getLastErrorRequest, getLastErrorRequest]⟩)
    ∧ ([getAppSwNameRequest, getLastErrorRequest, getLastErrorRequest].count
        getLastErrorRequest) = 2 :=
  ⟨rfl, rfl⟩

/-- Claim C6 as the code has it: when a command's response carries nonzero
status s (with ASCII result bytes) and the subsequent get-last-error reply
has status 0 with ASCII message bytes, exactly one get-last-error request
is issued and the call fails with CommandFailed embedding the original
status and the resolved message; when the response has status 0 the
decoded result is returned and no get-last-error request is issued. (When
the get-last-error reply is itself nonzero the resolver recurses and the
raised CommandFailed carries the inner status, as the counterexample
shows.) -/
theorem C6_error_escalation (st st2 : CommSt) (s : Nat) (nameBytes msgBytes nb : List Nat)
    (rest rest2 : List (List Nat))
    (hser : st.ser = some ())
    (hrep : st.replies = (11 :: 1 :: s :: nameBytes) :: (2 :: 0 :: 0 :: msgBytes) :: rest)
    (hs : s ≠ 0)
    (hname : nameBytes.all (fun x => x < 128) = true)
    (hmsg : msgBytes.all (fun x => x < 128) = true)
    (hser2 : st2.ser = some ())
    (hrep2 : st2.replies = (11 :: 1 :: 0 :: nb) :: rest2)
    (hnb : nb.all (fun x => x < 128) = true) :
    XCCommunication.get_app_sw_name st
      = (.error (.commandFailed ("Command failed with code " ++ toString s ++ " [" ++ String.mk (msgBytes.map Char.ofNat) ++ "]")), { st with replies := rest, sent := st.sent ++ [getAppSwNameRequest, getLastErrorRequest] })
    ∧ XCCommunication.get_app_sw_name st2
      = (.ok (String.mk (nb.map Char.ofNat)), { st2 with replies := rest2, sent := st2.sent ++ [getAppSwNameRequest] }) := by
  constructor
  · have h1 := executeRequest_reply getAppSwNameRequest (11 :: 1 :: s :: nameBytes)
      ((2 :: 0 :: 0 :: msgBytes) :: rest) st hser hrep
    have h2 := executeRequest_reply getLastErrorRequest (2 :: 0 :: 0 :: msgBytes) rest
      { st with replies := (2 :: 0 :: 0 :: msgBytes) :: rest, sent := st.sent ++ [getAppSwNameRequest] } (by simp [hser]) (by simp)
    simp [XCCommunication.get_app_sw_name, h1, XCCommunication.get_last_error,
      XCCommunication.getLastErrorAux, h2,
      XcCommandResponsePacket.ofPayload, XcCommandResponsePacket.get_command_packet,
      commandPackets, fromLE2, CommandPacket.get_status, CommandPacket.payload,
      CommandPacket.get_name, CommandPacket.get_response_data, decodeAscii,
      hname, hmsg, hs]
  · have h3 := executeRequest_reply getAppSwNameRequest (11 :: 1 :: 0 :: nb) rest2
      st2 hser2 hrep2
    simp [XCCommunication.get_app_sw_name, h3,
      XcCommandResponsePacket.ofPayload, XcCommandResponsePacket.get_command_packet,
      commandPackets, fromLE2, CommandPacket.get_status, CommandPacket.payload,
      CommandPacket.get_name, decodeAscii, hnb]

/-- Claim C6 witness: the amended statement at concrete sessions, one
whose name reply has status 3 with a successful error fetch resolving to
the message E, one whose name reply has status 0 and name N. -/
theorem C6_error_escalation_witness :
    XCCommunication.get_app_sw_name ⟨some (), true, [[11, 1, 3, 78], [2, 0, 0, 69]], []⟩
      = (.error (.commandFailed "Command failed with code 3 [E]"),
         ⟨some (), true, [], [getAppSwNameRequest, getLastErrorRequest]⟩)
    ∧ XCCommunication.get_app_sw_name ⟨some (), true, [[11, 1, 0, 78]], []⟩
      = (.ok "N", ⟨some (), true, [], [getAppSwNameRequest]⟩) :=
  C6_error_escalation ⟨some (), true, [[11, 1, 3, 78], [2, 0, 0, 69]], []⟩
    ⟨some (), true, [[11, 1, 0, 78]], []⟩ 3 [78] [69] [78] [] []
    rfl rfl (by decide) rfl rfl rfl rfl rfl

/-- Claim C7 counterexample: closing an open session succeeds and nulls
the serial handle, but closing the session a second time is NOT a no-op:
close calls self._ser.close() on None and raises an untyped AttributeError. -/
theorem C7_counterexample :
    XCCommunication.close ⟨some (), true, [], []⟩ = .ok ⟨none, false, [], []⟩
    ∧ XCCommunication.close ⟨none, false, [], []⟩ = .error PyErr.attributeError :=
  ⟨rfl, rfl⟩

/-- Claim C7 as the code has it: on a session whose serial handle is
already None (closed), close raises an untyped AttributeError (None has no
close method) instead of being a no-op, and every command call raises the
same untyped AttributeError from writing to the None handle — there is no
typed NotConnected error anywhere in the module. -/
theorem C7_closed_session_errors (st : CommSt) (h : st.ser = none) :
    XCCommunication.close st = .error PyErr.attributeError
    ∧ (XCCommunication.get_app_sw_version st).1 = .error PyErr.attributeError
    ∧ (XCCommunication.get_app_sw_name st).1 = .error PyErr.attributeError
    ∧ (XCCommunication.get_last_error st).1 = .error PyErr.attributeError
    ∧ (XCCommunication.dfu_reboot st).1 = .error PyErr.attributeError := by
  have hstop : (XCCommunication.stop st).ser = none := by
    by_cases hr : st.readerStarted <;> simp [XCCommunication.stop, hr, h]
  refine ⟨?_, ?_, ?_, ?_, ?_⟩
  · simp [XCCommunication.close, hstop]
  · simp [XCCommunication.get_app_sw_version,
      executeRequest_closed getAppSwVersionRequest st h]
  · simp [XCCommunication.get_app_sw_name,
      executeRequest_closed getAppSwNameRequest st h]
  · simp [XCCommunication.get_last_error, XCCommunication.getLastErrorAux,
      executeRequest_closed getLastErrorRequest st h]
  · simp [XCCommunication.dfu_reboot, XCCommunication.sendPacket, h]

/-- Claim C7 witness: the amended statement at a concrete closed session. -/
theorem C7_closed_session_errors_witness :
    XCCommunication.close ⟨none, false, [], []⟩ = .error PyErr.attributeError
    ∧ (XCCommunication.get_app_sw_version ⟨none, false, [], []⟩).1 = .error PyErr.attributeError
    ∧ (XCCommunication.get_app_sw_name ⟨none, false, [], []⟩).1 = .error PyErr.attributeError
    ∧ (XCCommunication.get_last_error ⟨none, false, [], []⟩).1 = .error PyErr.attributeError
    ∧ (XCCommunication.dfu_reboot ⟨none, false, [], []⟩).1 = .error PyErr.attributeError :=
  C7_closed_session_errors ⟨none, false, [], []⟩ rfl

/-- Claim C8: every encoded request payload is the 2-byte little-endian
command_id followed by the parameter bytes, and the four built-in commands
have empty parameters, so their encoded payloads are exactly the 2-byte
command_id: get-last-error 0x0002 is [2, 0], get-app-version 0x010A is
[10, 1], get-app-name 0x010B is [11, 1], dfu-reboot 0xFFFF is [255, 255]. -/
theorem C8_request_encoding (cid : Nat) (params : List Nat) (h : cid < 65536) :
    xcCommandRequestPayload cid params = cid % 256 :: cid / 256 :: params
    ∧ getLastErrorRequest = [2, 0]
    ∧ getAppSwVersionRequest = [10, 1]
    ∧ getAppSwNameRequest = [11, 1]
    ∧ dfuRebootRequest = [255, 255] := by
  refine ⟨?_, rfl, rfl, rfl, rfl⟩
  simp [xcCommandRequestPayload, toLE2]
  omega

/-- Claim C8 witness: the encoding at command_id 0x010A with a concrete
parameter byte. -/
theorem C8_request_encoding_witness :
    xcCommandRequestPayload 266 [9] = 266 % 256 :: 266 / 256 :: [9]
    ∧ getLastErrorRequest = [2, 0]
    ∧ getAppSwVersionRequest = [10, 1]
    ∧ getAppSwNameRequest = [11, 1]
    ∧ dfuRebootRequest = [255, 255] :=
  C8_request_encoding 266 [9] (by decide)

/-- Claim C9: a command-channel frame payload of at least 3 bytes decodes
as 2-byte little-endian command_id, then the status byte, then the result
bytes; each registered response object reports the status byte through
get_status and, for the string-valued commands, decodes the result bytes
as ASCII text; and concretely a reply with status 0 and result bytes
"2.1.0" makes get_app_sw_version return "2.1.0". -/
theorem C9_response_decoding (a b s : Nat) (rest : List Nat)
    (hrest : rest.all (fun x => x < 128) = true) :
    (XcCommandResponsePacket.ofPayload (a :: b :: s :: rest)).command_id = a + 256 * b
    ∧ (XcCommandResponsePacket.ofPayload (a :: b :: s :: rest)).command_payload = s :: rest
    ∧ (CommandPacket.getLastErrorResponse (s :: rest)).get_status = .ok s
    ∧ (CommandPacket.getAppSwVersionResponse (s :: rest)).get_status = .ok s
    ∧ (CommandPacket.getAppSwNameResponse (s :: rest)).get_status = .ok s
    ∧ (CommandPacket.getAppSwVersionResponse (s :: rest)).get_version
        = .ok (String.mk (rest.map Char.ofNat))
    ∧ (CommandPacket.getAppSwNameResponse (s :: rest)).get_name
        = .ok (String.mk (rest.map Char.ofNat))
    ∧ (CommandPacket.getLastErrorResponse (s :: rest)).get_response_data
        = .ok (String.mk (rest.map Char.ofNat))
    ∧ XCCommunication.get_app_sw_version ⟨some (), true, [[10, 1, 0, 50, 46, 49, 46, 48]], []⟩
      = (.ok "2.1.0", ⟨some (), true, [], [getAppSwVersionRequest]⟩) := by
  refine ⟨rfl, rfl, rfl, rfl, rfl, ?_, ?_, ?_, rfl⟩
  · simp [CommandPacket.get_version, decodeAscii, hrest]
  · simp [CommandPacket.get_name, decodeAscii, hrest]
  · simp [CommandPacket.get_response_data, decodeAscii, hrest]

/-- Claim C9 witness: response decoding at the payload [10, 1, 0] ++
"2.1.0" in ASCII bytes. -/
theorem C9_response_decoding_witness :
    (XcCommandResponsePacket.ofPayload (10 :: 1 :: 0 :: [50, 46, 49, 46, 48])).command_id
      = 10 + 256 * 1
    ∧ (XcCommandResponsePacket.ofPayload
        (10 :: 1 :: 0 :: [50, 46, 49, 46, 48])).command_payload = 0 :: [50, 46, 49, 46, 48]
    ∧ (CommandPacket.getLastErrorResponse (0 :: [50, 46, 49, 46, 48])).get_status = .ok 0
    ∧ (CommandPacket.getAppSwVersionResponse (0 :: [50, 46, 49, 46, 48])).get_status = .ok 0
    ∧ (CommandPacket.getAppSwNameResponse (0 :: [50, 46, 49, 46, 48])).get_status = .ok 0
    ∧ (CommandPacket.getAppSwVersionResponse (0 :: [50, 46, 49, 46, 48])).get_version
        = .ok "2.1.0"
    ∧ (CommandPacket.getAppSwNameResponse (0 :: [50, 46, 49, 46, 48])).get_name = .ok "2.1.0"
    ∧ (CommandPacket.getLastErrorResponse (0 :: [50, 46, 49, 46, 48])).get_response_data
        = .ok "2.1.0"
    ∧ XCCommunication.get_app_sw_version ⟨some (), true, [[10, 1, 0, 50, 46, 49, 46, 48]], []⟩
      = (.ok "2.1.0", ⟨some (), true, [], [getAppSwVersionRequest]⟩) :=
  C9_response_decoding 10 1 0 [50, 46, 49, 46, 48] rfl

/-- Claim C10: constructing an XCCommunication on any platform other than
Linux fails with OSError in the check that precedes the serial-port
acquisition and reader start, so no session state is ever produced. -/
theorem C10_non_linux_init_fails (p : String) (replies : List (List Nat))
    (h : p ≠ "Linux") :
    XCCommunication.init p replies = .error (.osError "Module only supports Linux.")
    ∧ ∀ st : CommSt, XCCommunication.init p replies ≠ .ok st := by
  refine ⟨?_, ?_⟩
  · simp [XCCommunication.init, h]
  · intro st hcontra
    simp [XCCommunication.init, h] at hcontra

/-- Claim C10 witness: construction on Windows fails with OSError. -/
theorem C10_non_linux_init_fails_witness :
    XCCommunication.init "Windows" [] = .error (.osError "Module only supports Linux.")
    ∧ ∀ st : CommSt, XCCommunication.init "Windows" [] ≠ .ok st :=
  C10_non_linux_init_fails "Windows" [] (by decide)
